import Mathlib

/-!
Verification of the gesture-recognition core of the SignStream repository.

The two source modules embedded here are:
* `src/lib/gesture-recognizer.ts` — the static pose classifier with its
  module-level motion history (`prevLandmarks`, `verticalHistory`) and the
  embedded shake ("6-7") detector;
* `src/unnamed/part_000` — the `GestureBuffer` FIFO and the dynamic matcher
  (`recognizeDynamicGesture`) with its five priority-ordered detectors.

Modelling conventions:
* Coordinates are exact rationals (`ℚ`); the source's IEEE doubles are modelled
  exactly, as every constant in the source is a short decimal literal.
* Every comparison of `Math.hypot(ax-bx, ay-by)` in the source is encoded via
  squared distances: `hypot p q < t` iff `p^2 + q^2 < t^2` for a threshold
  `t ≥ 0`, and `hypot` comparisons between two distances are equivalent to the
  corresponding squared comparisons, because `sqrt` is strictly monotone on
  nonnegative reals.  All thresholds in the source are positive literals.
* A hand is a total function `Fin 21 → Landmark` (the source indexes a
  21-element array; the spec makes callers responsible for the length).
  An absent / empty hand argument is `Option.none`.
-/

/-- One MediaPipe landmark: normalized x, y and relative depth z. -/
structure Landmark where
  x : ℚ
  y : ℚ
  z : ℚ
deriving DecidableEq

/-- A hand: the 21 landmarks, positionally indexed (0 = wrist, 4 = thumb tip,
8 = index tip, 12 = middle tip, 16 = ring tip, 20 = pinky tip, ...). -/
abbrev Hand := Fin 21 → Landmark

/-- A frame: the hands detected in one video tick. -/
abbrev Frame := List Hand

/-- Squared planar distance; stands for the source's
`dist(a, b) = Math.hypot(a.x - b.x, a.y - b.y)` under the squaring convention
described in the module docstring. -/
def distSq (a b : Landmark) : ℚ :=
  (a.x - b.x) ^ 2 + (a.y - b.y) ^ 2

/-- `dist(a, b) < t` for a positive threshold `t`, encoded on squares. -/
def distLt (a b : Landmark) (t : ℚ) : Bool :=
  decide (distSq a b < t ^ 2)

/-- `dist(a, b) > t` for a positive threshold `t`, encoded on squares. -/
def distGt (a b : Landmark) (t : ℚ) : Bool :=
  decide (t ^ 2 < distSq a b)

/-- Source `isExtended(tip, pip)` (with the wrist closed over in
`recognizeGesture`, passed explicitly in the dynamic module):
the fingertip is farther from the wrist than the PIP joint. -/
def isExtended (tip pip wrist : Landmark) : Bool :=
  decide (distSq pip wrist < distSq tip wrist)

/-- Source `isThumbExtended()`: thumb tip farther from the index MCP than the
thumb IP joint is. -/
def isThumbExtended (thumbTip thumbIp indexMcp : Landmark) : Bool :=
  decide (distSq thumbIp indexMcp < distSq thumbTip indexMcp)

/-- Output space of `checkOrientation`. -/
inductive HandOrientation where
  | UP | DOWN | SIDE | NONE
deriving DecidableEq

/-- Source `checkOrientation` (`src/lib/gesture-recognizer.ts`, lines 9–26):
coarse pointing direction from wrist (landmark 0) to index tip (landmark 8). -/
def checkOrientation : Option Hand → HandOrientation
  | none => HandOrientation.NONE
  | some landmarks =>
    let wrist := landmarks 0
    let indexTip := landmarks 8
    let dx := |indexTip.x - wrist.x|
    let dy := |indexTip.y - wrist.y|
    if dx > dy then HandOrientation.SIDE
    else if indexTip.y < wrist.y then HandOrientation.UP
    else HandOrientation.DOWN

/-- Output alphabet of the static classifier.  `Shake` is the source's
special compound label `"6-7"`. -/
inductive Gesture where
  | A | B | C | D | E | F | G | H | I | J | K | L | M
  | N | O | P | Q | R | S | T | U | V | W | X | Y | Z
  | Shake | NONE
deriving DecidableEq

/-- The letter-branch logic of `recognizeGesture`
(`src/lib/gesture-recognizer.ts`, lines 125–267), i.e. everything after the
motion-gesture check.  `none` models the fall-through path (source line 270),
the only path on which the source updates `prevLandmarks` besides the shake
branch; every `some` is one of the source's early `return` statements. -/
def classify (h : Hand) : Option Gesture :=
  let orientation := checkOrientation (some h)
  let thumbOpen := isThumbExtended (h 4) (h 3) (h 5)
  let indexOpen := isExtended (h 8) (h 6) (h 0)
  let middleOpen := isExtended (h 12) (h 10) (h 0)
  let ringOpen := isExtended (h 16) (h 14) (h 0)
  let pinkyOpen := isExtended (h 20) (h 18) (h 0)
  -- 1. Fist / curled fingers group (A, E, S, T, M, N)
  if !indexOpen && !middleOpen && !ringOpen && !pinkyOpen then
    if thumbOpen then some Gesture.A
    else if distLt (h 4) (h 6) 0.05 || distLt (h 4) (h 5) 0.05 then some Gesture.T
    else if distLt (h 4) (h 10) 0.05 || distLt (h 4) (h 9) 0.05 then some Gesture.N
    else if distLt (h 4) (h 14) 0.05 || distLt (h 4) (h 18) 0.05 then some Gesture.M
    else if distLt (h 4) (h 7) 0.05 then some Gesture.S
    else some Gesture.E
  -- 2. Index-only group (D, Z, X, L, G, P, Q)
  else if indexOpen && !middleOpen && !ringOpen && !pinkyOpen then
    if thumbOpen then
      if orientation = HandOrientation.SIDE then some Gesture.G else some Gesture.L
    else if orientation = HandOrientation.DOWN then
      -- the source's dead `if (thumbOpen) return "Q"` is kept verbatim
      if thumbOpen then some Gesture.Q else some Gesture.Z
    else if orientation = HandOrientation.SIDE then some Gesture.G
    else if distLt (h 8) (h 6) 0.08 then some Gesture.X
    else some Gesture.D
  -- 3. Index + middle group (U, V, H, K, P)
  else if indexOpen && middleOpen && !ringOpen && !pinkyOpen then
    if orientation = HandOrientation.DOWN then some Gesture.P
    else if orientation = HandOrientation.SIDE then some Gesture.H
    else if distLt (h 8) (h 12) 0.03 then some Gesture.U
    else if distLt (h 4) (h 10) 0.06 then some Gesture.K
    else some Gesture.V
  -- 4. Three fingers (W)
  else if indexOpen && middleOpen && ringOpen && !pinkyOpen then some Gesture.W
  -- 5. Pinky only (I, Y)
  else if !indexOpen && !middleOpen && !ringOpen && pinkyOpen then
    if thumbOpen then some Gesture.Y else some Gesture.I
  -- 6. Open hand / C / O / F
  else if !indexOpen && middleOpen && ringOpen && pinkyOpen then some Gesture.F
  else if middleOpen && ringOpen && pinkyOpen && distLt (h 4) (h 8) 0.06 then
    some Gesture.F
  else if distLt (h 4) (h 8) 0.06 && distLt (h 4) (h 12) 0.06 then some Gesture.O
  else if indexOpen && middleOpen && ringOpen && pinkyOpen then
    if distGt (h 4) (h 8) 0.05 && distLt (h 4) (h 8) 0.25 then some Gesture.C
    else some Gesture.B
  else none

/-- The module-level mutable state of `src/lib/gesture-recognizer.ts`:
`prevLandmarks` (line 6) and `verticalHistory` (line 7). -/
structure RecState where
  prevLandmarks : Option Hand
  verticalHistory : List Int
deriving DecidableEq

/-- Source lines 92–104: derive the vertical direction sign from the wrist
displacement `dy` and push it into the 20-capacity FIFO (push, then shift
once if the length exceeds 20).  The source assigns `verticalDir` by two
consecutive `if` statements whose conditions are mutually exclusive, so the
nested conditional below is equivalent. -/
def updateHistory (hist : List Int) (dy : ℚ) : List Int :=
  let verticalDir : Int := if dy < -0.02 then -1 else if dy > 0.02 then 1 else 0
  if verticalDir ≠ 0 then
    let pushed := hist ++ [verticalDir]
    if pushed.length > 20 then pushed.tail else pushed
  else hist

/-- Source lines 109–115: number of adjacent sign changes in the history. -/
def directionChanges : List Int → Nat
  | [] => 0
  | [_] => 0
  | a :: b :: rest => (if a ≠ b then 1 else 0) + directionChanges (b :: rest)

/-- The history value after the motion-history update of one call (source
lines 83–105): unchanged when no previous frame exists, otherwise updated
from the wrist displacement. -/
def nextHistory (s : RecState) (h : Hand) : List Int :=
  match s.prevLandmarks with
  | none => s.verticalHistory
  | some prev => updateHistory s.verticalHistory ((h 0).y - (prev 0).y)

/-- Source `recognizeGesture` (`src/lib/gesture-recognizer.ts`, lines 28–271),
with the module-level mutable state made explicit: it returns the label and
the new state.  Return paths, as in the source:
* empty input (line 29): `"NONE"`, state untouched;
* shake (lines 118–122): `"6-7"`, history cleared, `prevLandmarks` updated;
* a letter (early `return`s in lines 125–267): state keeps the old
  `prevLandmarks`, history as updated;
* fall-through (lines 269–270): `"NONE"`, `prevLandmarks` updated. -/
def recognizeGesture (lm : Option Hand) (s : RecState) : Gesture × RecState :=
  match lm with
  | none => (Gesture.NONE, s)
  | some h =>
    let hist1 := nextHistory s h
    if 6 < hist1.length ∧ 4 ≤ directionChanges hist1 then
      (Gesture.Shake, ⟨some h, []⟩)
    else
      match classify h with
      | some g => (g, ⟨s.prevLandmarks, hist1⟩)
      | none => (Gesture.NONE, ⟨some h, hist1⟩)

/-- Source `GestureBuffer` (`src/unnamed/part_000`, lines 227–249): a
fixed-capacity FIFO of frames.  The constructor default for `maxSize` is 30. -/
structure GestureBuffer where
  buffer : List Frame
  maxSize : Nat

/-- `new GestureBuffer(maxSize)` (constructor default: 30). -/
def GestureBuffer.init (maxSize : Nat) : GestureBuffer :=
  ⟨[], maxSize⟩

/-- Source `add`: push the frame, then shift the oldest out if the length
exceeds `maxSize`. -/
def GestureBuffer.add (b : GestureBuffer) (landmarks : Frame) : GestureBuffer :=
  ⟨if b.maxSize < (b.buffer ++ [landmarks]).length
    then (b.buffer ++ [landmarks]).tail
    else b.buffer ++ [landmarks],
   b.maxSize⟩

/-- Source `getBuffer`. -/
def GestureBuffer.getBuffer (b : GestureBuffer) : List Frame :=
  b.buffer

/-- Source `clear`. -/
def GestureBuffer.clear (b : GestureBuffer) : GestureBuffer :=
  ⟨[], b.maxSize⟩

/-- An externally driven buffer operation, for stating buffer invariants over
arbitrary operation sequences. -/
inductive BufOp where
  | add (f : Frame)
  | clear

/-- Apply one buffer operation. -/
def BufOp.apply (b : GestureBuffer) : BufOp → GestureBuffer
  | BufOp.add f => b.add f
  | BufOp.clear => b.clear

/-- Run a sequence of operations on a fresh buffer of capacity `c`. -/
def applyOps (c : Nat) (ops : List BufOp) : GestureBuffer :=
  ops.foldl BufOp.apply (GestureBuffer.init c)

/-- Add a whole list of frames in order. -/
def addAll (b : GestureBuffer) (fs : List Frame) : GestureBuffer :=
  fs.foldl GestureBuffer.add b

/-- Output space of the dynamic matcher (source returns these as strings,
or `null` = `Option.none` for no match). -/
inductive DynGesture where
  | HELLO | YES | NO | HELP | TIME
deriving DecidableEq

/-- Source `checkOpenHand` (`src/unnamed/part_000`, lines 273–275): every
fingertip y above (less than) its MCP y. -/
def checkOpenHand (l : Hand) : Bool :=
  decide ((l 8).y < (l 5).y) && decide ((l 12).y < (l 9).y) &&
  decide ((l 16).y < (l 13).y) && decide ((l 20).y < (l 17).y)

/-- Source `checkYShape` (lines 263–270): thumb and pinky extended, the three
middle fingers not.  Note the thumb here is tested tip-vs-MCP against the
wrist, unlike the static classifier's thumb test. -/
def checkYShape (l : Hand) : Bool :=
  isExtended (l 4) (l 2) (l 0) && isExtended (l 20) (l 18) (l 0) &&
  !isExtended (l 8) (l 6) (l 0) && !isExtended (l 12) (l 10) (l 0) &&
  !isExtended (l 16) (l 14) (l 0)

/-- Source `isFist` (line 278). -/
def isFist (l : Hand) : Bool :=
  !isExtended (l 8) (l 6) (l 0) && !isExtended (l 12) (l 10) (l 0) &&
  !isExtended (l 16) (l 14) (l 0) && !isExtended (l 20) (l 18) (l 0)

/-- Source `isFlat` (line 280). -/
def isFlat (l : Hand) : Bool :=
  isExtended (l 8) (l 6) (l 0) && isExtended (l 12) (l 10) (l 0) &&
  isExtended (l 16) (l 14) (l 0) && isExtended (l 20) (l 18) (l 0)

/-- Source `isPointing` (line 282). -/
def isPointing (l : Hand) : Bool :=
  isExtended (l 8) (l 6) (l 0) && !isExtended (l 12) (l 10) (l 0) &&
  !isExtended (l 16) (l 14) (l 0) && !isExtended (l 20) (l 18) (l 0)

/-- Source `isTapPose` (lines 370–374). -/
def isTapPose (l : Hand) : Bool :=
  distLt (l 4) (l 8) 0.05 && distLt (l 4) (l 12) 0.05

/-- `Math.min(...xs)` for the nonempty lists it is applied to. -/
def listMin : List ℚ → ℚ
  | [] => 0
  | x :: xs => xs.foldl min x

/-- `Math.max(...xs)` for the nonempty lists it is applied to. -/
def listMax : List ℚ → ℚ
  | [] => 0
  | x :: xs => xs.foldl max x

/-- The direction-reversal counting loop shared by the HELLO and YES
detectors (source lines 308–320 and 348–357): `prev` is the previous sample,
`lastDir` the last nonzero direction (0 initially). -/
def countRevAux (thresh : ℚ) (prev : ℚ) (lastDir : Int) : List ℚ → Nat
  | [] => 0
  | x :: rest =>
    if |x - prev| > thresh then
      (if lastDir ≠ 0 ∧ (if x - prev > 0 then (1 : Int) else -1) ≠ lastDir
        then 1 else 0) +
      countRevAux thresh x (if x - prev > 0 then 1 else -1) rest
    else countRevAux thresh x lastDir rest

/-- Number of direction reversals over a sample list, threshold on `|Δ|`. -/
def countReversals (thresh : ℚ) : List ℚ → Nat
  | [] => 0
  | x :: rest => countRevAux thresh x 0 rest

/-- HELLO sample collection (source lines 297–304): wrist x of the first open
hand of every frame, among the last 20 frames, that has an open hand. -/
def helloWristXs (frames : List Frame) : List ℚ :=
  (frames.drop (frames.length - 20)).filterMap
    (fun f => ((f.find? checkOpenHand).map (fun hd => (hd 0).x)))

/-- The HELLO (wave) detector condition (source lines 285–330). -/
def helloCond (frames : List Frame) : Bool :=
  if 14 < ((frames.drop (frames.length - 20)).filter
            (fun f => f.any checkOpenHand)).length then
    if 10 < (helloWristXs frames).length then
      decide (2 ≤ countReversals 0.005 (helloWristXs frames) ∧
        (0.1 : ℚ) < listMax (helloWristXs frames) - listMin (helloWristXs frames))
    else false
  else false

/-- YES history collection (source lines 336–342): the first Y-shaped hand of
each of the last 15 frames that has one. -/
def yesHandHistory (frames : List Frame) : List Hand :=
  (frames.drop (frames.length - 15)).filterMap (fun f => f.find? checkYShape)

/-- Wrist-y samples of the YES history (source line 345). -/
def yesWristYs (frames : List Frame) : List ℚ :=
  (yesHandHistory frames).map (fun hd => (hd 0).y)

/-- Wrist-x samples of the YES history (source line 346). -/
def yesWristXs (frames : List Frame) : List ℚ :=
  (yesHandHistory frames).map (fun hd => (hd 0).x)

/-- The YES (Y-hand nod) detector condition (source lines 332–366). -/
def yesCond (frames : List Frame) (currentFrame : Frame) : Bool :=
  match currentFrame.find? checkYShape with
  | none => false
  | some _ =>
    if 8 < (yesHandHistory frames).length then
      decide (2 ≤ countReversals 0.005 (yesWristYs frames) ∧
        (0.1 : ℚ) < listMax (yesWristYs frames) - listMin (yesWristYs frames) ∧
        (listMax (yesWristXs frames) - listMin (yesWristXs frames)) * 1.5 <
          listMax (yesWristYs frames) - listMin (yesWristYs frames))
    else false

/-- The NO (tap) detector condition (source lines 368–389): a tap pose now,
and some fully-open hand in the frames at offsets `slice(-15, -5)`. -/
def noCond (frames : List Frame) (currentFrame : Frame) : Bool :=
  if (currentFrame.find? isTapPose).isSome then
    ((frames.take (frames.length - 5)).drop (frames.length - 15)).any
      (fun f => f.any (fun hd => distGt (hd 4) (hd 8) 0.1 && distGt (hd 4) (hd 12) 0.1))
  else false

/-- Per-frame average-y sample for the HELP detector (source lines 411–427). -/
def helpAvgY (frame : Frame) : ℚ :=
  match frame with
  | _ :: _ :: _ =>
    match frame.find? isFist, frame.find? isFlat with
    | some cf, some cl => ((cf 0).y + (cl 0).y) / 2
    | _, _ => (frame.foldl (fun sum hd => sum + (hd 0).y) 0) / (frame.length : ℚ)
  | [f1] => (f1 0).y
  | [] => 1

/-- The HELP (fist on palm, lifted) detector condition (source lines 391–439). -/
def helpCond (frames : List Frame) (currentFrame : Frame) : Bool :=
  match currentFrame with
  | h1 :: h2 :: _ =>
    match
      (if isFist h1 && isFlat h2 then some (h1, h2)
       else if isFist h2 && isFlat h1 then some (h2, h1)
       else none : Option (Hand × Hand)) with
    | none => false
    | some (fistHand, flatHand) =>
      if distLt (fistHand 0) (flatHand 9) 0.15 then
        if 5 < ((frames.drop (frames.length - 10)).map helpAvgY).length then
          decide ((0.1 : ℚ) <
            ((frames.drop (frames.length - 10)).map helpAvgY).headD 0 -
            ((frames.drop (frames.length - 10)).map helpAvgY).getLastD 0)
        else false
      else false
  | _ => false

/-- The TIME (index tip on other wrist) detector condition (source
lines 441–460). -/
def timeCond (currentFrame : Frame) : Bool :=
  match currentFrame with
  | h1 :: h2 :: _ =>
    match
      (if isPointing h1 then some (h1, h2)
       else if isPointing h2 then some (h2, h1)
       else none : Option (Hand × Hand)) with
    | none => false
    | some (pointerHand, targetHand) => distLt (pointerHand 8) (targetHand 0) 0.1
  | _ => false

/-- Source `recognizeDynamicGesture` (`src/unnamed/part_000`, lines 251–463):
two gates (length ≥ 5, current frame nonempty), then the five detectors in
strict priority order; first match wins. -/
def recognizeDynamicGesture (b : GestureBuffer) : Option DynGesture :=
  if b.getBuffer.length < 5 then none
  else if (b.getBuffer.getD (b.getBuffer.length - 1) []).length = 0 then none
  else if helloCond b.getBuffer then some DynGesture.HELLO
  else if yesCond b.getBuffer (b.getBuffer.getD (b.getBuffer.length - 1) []) then
    some DynGesture.YES
  else if noCond b.getBuffer (b.getBuffer.getD (b.getBuffer.length - 1) []) then
    some DynGesture.NO
  else if helpCond b.getBuffer (b.getBuffer.getD (b.getBuffer.length - 1) []) then
    some DynGesture.HELP
  else if timeCond (b.getBuffer.getD (b.getBuffer.length - 1) []) then
    some DynGesture.TIME
  else none

/-! Spec-side transcriptions, for the refinement-style claims.  These follow
the spec's words and are compared against the source-side definitions above. -/

/-- Transcribed from the spec's words (§4.1, claim C8): SIDE when the
horizontal displacement between index tip and wrist exceeds the vertical one,
else UP when the fingertip's y is less than the wrist's, else DOWN;
NONE for missing input. -/
def orientationSpec : Option Hand → HandOrientation
  | none => HandOrientation.NONE
  | some h =>
    if |(h 8).x - (h 0).x| > |(h 8).y - (h 0).y| then HandOrientation.SIDE
    else if (h 8).y < (h 0).y then HandOrientation.UP
    else HandOrientation.DOWN

/-- Transcribed from the claim C4 wording: append to the 20-capacity FIFO,
dropping the oldest entry when the history is full. -/
def pushCapSpec (hist : List Int) (d : Int) : List Int :=
  if hist.length = 20 then hist.tail ++ [d] else hist ++ [d]

/-- Transcribed from the claim C4 wording: a direction sign is appended
exactly when `dy < -0.02` (sign `-1`) or `dy > 0.02` (sign `+1`); otherwise
the history is unchanged. -/
def motionStepSpec (hist : List Int) (dy : ℚ) : List Int :=
  if dy < -0.02 then pushCapSpec hist (-1)
  else if dy > 0.02 then pushCapSpec hist 1
  else hist

/-! Concrete inputs used by witnesses and counterexamples. -/

/-- The all-zero hand (every landmark at the origin). -/
def constHand : Hand := fun _ => ⟨0, 0, 0⟩

/-- A hand whose four fingertips are above their MCP joints (an "open hand"
in the dynamic matcher's sense), wrist at x-coordinate `x`. -/
def mkOpenHand (x : ℚ) : Hand := fun i =>
  if i = 8 ∨ i = 12 ∨ i = 16 ∨ i = 20 then ⟨x, 0, 0⟩ else ⟨x, 1, 0⟩

/-- A curled-fingers hand with the thumb up: wrist at (0.5, 1), the four
fingertips closer to the wrist than their PIP joints, thumb tip far out to the
side.  The classifier letter logic maps it to `A`. -/
def fistThumbUpHand : Hand := fun i =>
  if i = 0 then ⟨0.5, 1, 0⟩
  else if i = 1 then ⟨0.4, 0.9, 0⟩
  else if i = 2 then ⟨0.38, 0.8, 0⟩
  else if i = 3 then ⟨0.36, 0.75, 0⟩
  else if i = 4 then ⟨0.2, 0.6, 0⟩
  else if i = 5 then ⟨0.5, 0.6, 0⟩
  else if i = 6 then ⟨0.5, 0.5, 0⟩
  else if i = 7 then ⟨0.5, 0.55, 0⟩
  else if i = 8 then ⟨0.5, 0.7, 0⟩
  else if i = 9 then ⟨0.55, 0.6, 0⟩
  else if i = 10 then ⟨0.55, 0.5, 0⟩
  else if i = 11 then ⟨0.55, 0.55, 0⟩
  else if i = 12 then ⟨0.55, 0.7, 0⟩
  else if i = 13 then ⟨0.6, 0.6, 0⟩
  else if i = 14 then ⟨0.6, 0.5, 0⟩
  else if i = 15 then ⟨0.6, 0.55, 0⟩
  else if i = 16 then ⟨0.6, 0.7, 0⟩
  else if i = 17 then ⟨0.65, 0.6, 0⟩
  else if i = 18 then ⟨0.65, 0.5, 0⟩
  else if i = 19 then ⟨0.65, 0.55, 0⟩
  else ⟨0.65, 0.7, 0⟩

/-- A hand with all four fingers extended and the thumb tip touching both the
index and middle fingertips (within 0.06 of each). -/
def allExtendedTouchHand : Hand := fun i =>
  if i = 0 then ⟨0.5, 1, 0⟩
  else if i = 1 then ⟨0.45, 0.85, 0⟩
  else if i = 2 then ⟨0.42, 0.7, 0⟩
  else if i = 3 then ⟨0.45, 0.5, 0⟩
  else if i = 4 then ⟨0.52, 0.22, 0⟩
  else if i = 5 then ⟨0.5, 0.6, 0⟩
  else if i = 6 then ⟨0.5, 0.5, 0⟩
  else if i = 7 then ⟨0.5, 0.35, 0⟩
  else if i = 8 then ⟨0.5, 0.2, 0⟩
  else if i = 9 then ⟨0.55, 0.6, 0⟩
  else if i = 10 then ⟨0.55, 0.5, 0⟩
  else if i = 11 then ⟨0.55, 0.35, 0⟩
  else if i = 12 then ⟨0.55, 0.2, 0⟩
  else if i = 13 then ⟨0.6, 0.6, 0⟩
  else if i = 14 then ⟨0.6, 0.5, 0⟩
  else if i = 15 then ⟨0.6, 0.35, 0⟩
  else if i = 16 then ⟨0.6, 0.2, 0⟩
  else if i = 17 then ⟨0.65, 0.6, 0⟩
  else if i = 18 then ⟨0.65, 0.5, 0⟩
  else if i = 19 then ⟨0.65, 0.35, 0⟩
  else ⟨0.65, 0.2, 0⟩

/-- Spec §8's UP example: wrist (0.5, 0.5), index tip (0.5, 0.3). -/
def upHand : Hand := fun i => if i = 8 then ⟨0.5, 0.3, 0⟩ else ⟨0.5, 0.5, 0⟩

/-- Spec §8's SIDE example: wrist (0.5, 0.5), index tip (0.7, 0.5). -/
def sideHand : Hand := fun i => if i = 8 then ⟨0.7, 0.5, 0⟩ else ⟨0.5, 0.5, 0⟩

/-- Spec §8's DOWN example: wrist (0.5, 0.5), index tip (0.5, 0.7). -/
def downHand : Hand := fun i => if i = 8 then ⟨0.5, 0.7, 0⟩ else ⟨0.5, 0.5, 0⟩

/-- An oscillating history that triggers the shake branch: length 7,
six sign changes. -/
def shakeHist : List Int := [1, -1, 1, -1, 1, -1, 1]

/-- 20 frames, one open hand each, wrist x oscillating between 0.3 and 0.5:
a buffer state that the HELLO detector matches. -/
def helloFrames : List Frame :=
  [[mkOpenHand 0.3], [mkOpenHand 0.5], [mkOpenHand 0.3], [mkOpenHand 0.5],
   [mkOpenHand 0.3], [mkOpenHand 0.5], [mkOpenHand 0.3], [mkOpenHand 0.5],
   [mkOpenHand 0.3], [mkOpenHand 0.5], [mkOpenHand 0.3], [mkOpenHand 0.5],
   [mkOpenHand 0.3], [mkOpenHand 0.5], [mkOpenHand 0.3], [mkOpenHand 0.5],
   [mkOpenHand 0.3], [mkOpenHand 0.5], [mkOpenHand 0.3], [mkOpenHand 0.5]]

/-- A capacity-30 buffer holding `helloFrames`. -/
def helloBuf : GestureBuffer := ⟨helloFrames, 30⟩

/-- 14 open-hand frames with oscillating wrist x, followed by 6 empty frames:
exactly 70% of the last 20 frames contain an open hand, with 14 wrist-x
samples, 12 direction reversals and range 0.2, but the current frame holds no
hand. -/
def noHandLastFrames : List Frame :=
  [[mkOpenHand 0.3], [mkOpenHand 0.5], [mkOpenHand 0.3], [mkOpenHand 0.5],
   [mkOpenHand 0.3], [mkOpenHand 0.5], [mkOpenHand 0.3], [mkOpenHand 0.5],
   [mkOpenHand 0.3], [mkOpenHand 0.5], [mkOpenHand 0.3], [mkOpenHand 0.5],
   [mkOpenHand 0.3], [mkOpenHand 0.5], [], [], [], [], [], []]

/-- A capacity-30 buffer holding `noHandLastFrames`. -/
def noHandLastBuf : GestureBuffer := ⟨noHandLastFrames, 30⟩

/-- A buffer of five empty frames. -/
def emptyFramesBuf : GestureBuffer := ⟨[[], [], [], [], []], 30⟩

/-! Helper lemmas. -/

/-- Every early return of the letter logic is one of the 24 reachable letters:
in particular it is never the shake label, never `J`, never `R` and never the
`NONE` label. -/
theorem classify_letters (h : Hand) (g : Gesture) (hg : classify h = some g) :
    g ≠ Gesture.Shake ∧ g ≠ Gesture.J ∧ g ≠ Gesture.R ∧ g ≠ Gesture.NONE := by
  simp only [classify] at hg
  repeat' split at hg
  all_goals first
    | exact Option.noConfusion hg
    | (injection hg with e; subst e; decide)

/-- `recognizeGesture` on a nonempty hand, when the shake branch does not
fire: the result is read off the letter logic. -/
theorem recognizeGesture_no_shake (h : Hand) (s : RecState)
    (hsh : ¬(6 < (nextHistory s h).length ∧ 4 ≤ directionChanges (nextHistory s h))) :
    recognizeGesture (some h) s =
      match classify h with
      | some g => (g, ⟨s.prevLandmarks, nextHistory s h⟩)
      | none => (Gesture.NONE, ⟨some h, nextHistory s h⟩) := by
  simp only [recognizeGesture, if_neg hsh]

/-- `recognizeGesture` on a nonempty hand when the shake branch fires. -/
theorem recognizeGesture_shake (h : Hand) (s : RecState)
    (hsh : 6 < (nextHistory s h).length ∧ 4 ≤ directionChanges (nextHistory s h)) :
    recognizeGesture (some h) s = (Gesture.Shake, ⟨some h, []⟩) := by
  simp only [recognizeGesture, if_pos hsh]

/-- C7: for every buffer containing fewer than 5 frames, whatever the frames'
contents, the dynamic matcher returns no match immediately (source line 253). -/
theorem c7_short_buffer_none (b : GestureBuffer) (hb : b.getBuffer.length < 5) :
    recognizeDynamicGesture b = none := by
  simp only [recognizeDynamicGesture, if_pos hb]

/-- C7 witness: the empty capacity-30 buffer. -/
theorem c7_short_buffer_none_witness :
    (GestureBuffer.init 30).getBuffer.length < 5 ∧
    recognizeDynamicGesture (GestureBuffer.init 30) = none :=
  ⟨by decide, c7_short_buffer_none (GestureBuffer.init 30) (by decide)⟩


/-- C8: the orientation detector is a pure function of the hand; it returns
NONE for missing input and otherwise agrees pointwise with the spec's formula
(SIDE when `|x8 − x0| > |y8 − y0|`, else UP when `y8 < y0`, else DOWN); the
spec §8 examples evaluate as stated. -/
theorem c8_orientation_matches_spec (lm : Option Hand) :
    checkOrientation lm = orientationSpec lm ∧
    checkOrientation (some upHand) = HandOrientation.UP ∧
    checkOrientation (some sideHand) = HandOrientation.SIDE ∧
    checkOrientation (some downHand) = HandOrientation.DOWN := by
  refine ⟨?_, by with_unfolding_all decide, by with_unfolding_all decide,
    by with_unfolding_all decide⟩
  cases lm <;> rfl

/-- C9: a buffer of at least 5 frames whose current (last) frame contains no
hands yields no match; the matcher returns at the empty-current-frame gate
(source line 256), before any of the five detectors runs. -/
theorem c9_empty_current_frame_none (b : GestureBuffer)
    (hlen : 5 ≤ b.getBuffer.length)
    (hcur : b.getBuffer.getD (b.getBuffer.length - 1) [] = []) :
    recognizeDynamicGesture b = none := by
  simp only [recognizeDynamicGesture, if_neg (Nat.not_lt.mpr hlen), hcur]
  simp

/-- C9 witness: five frames, each with zero hands. -/
theorem c9_empty_current_frame_none_witness :
    5 ≤ emptyFramesBuf.getBuffer.length ∧
    recognizeDynamicGesture emptyFramesBuf = none :=
  ⟨by decide, c9_empty_current_frame_none emptyFramesBuf (by decide) (by decide)⟩

/-- The motion-history update of the source agrees with the claim's
description of it whenever the history respects its 20-entry bound. -/
theorem updateHistory_eq_spec (hist : List Int) (dy : ℚ) (hlen : hist.length ≤ 20) :
    updateHistory hist dy = motionStepSpec hist dy := by
  simp only [updateHistory, motionStepSpec, pushCapSpec]
  by_cases h1 : dy < -0.02
  · simp only [if_pos h1]
    have hne : (-1 : Int) ≠ 0 := by decide
    simp only [if_pos hne, List.length_append, List.length_singleton]
    by_cases h20 : hist.length = 20
    · rw [if_pos (by omega), if_pos h20]
      cases hist with
      | nil => simp at h20
      | cons a t => simp
    · rw [if_neg (by omega), if_neg h20]
  · by_cases h2 : dy > 0.02
    · simp only [if_neg h1, if_pos h2]
      have hne : (1 : Int) ≠ 0 := by decide
      simp only [if_pos hne, List.length_append, List.length_singleton]
      by_cases h20 : hist.length = 20
      · rw [if_pos (by omega), if_pos h20]
        cases hist with
        | nil => simp at h20
        | cons a t => simp
      · rw [if_neg (by omega), if_neg h20]
    · simp only [if_neg h1, if_neg h2]
      simp

/-- The 20-entry bound is preserved by one motion-history step. -/
theorem motionStepSpec_length (hist : List Int) (dy : ℚ) (hlen : hist.length ≤ 20) :
    (motionStepSpec hist dy).length ≤ 20 := by
  simp only [motionStepSpec, pushCapSpec]
  split_ifs
  all_goals try simp only [List.length_append, List.length_tail, List.length_singleton]
  all_goals omega

/-- C4: with a previous frame present, one call (i) updates the history as
the claim describes — a sign is appended exactly when `dy < -0.02` (sign −1)
or `dy > 0.02` (sign +1), with the oldest entry dropped at the 20-entry cap —
(ii) keeps the 20-entry bound, (iii) returns the shake label with a cleared
history as soon as the updated history is longer than 6 with at least 4
adjacent sign changes, regardless of the hand pose, and (iv) otherwise keeps
the updated history in the returned state. -/
theorem c4_motion_history_and_shake (h prev : Hand) (hist : List Int)
    (hlen : hist.length ≤ 20) :
    updateHistory hist ((h 0).y - (prev 0).y) = motionStepSpec hist ((h 0).y - (prev 0).y) ∧
    (motionStepSpec hist ((h 0).y - (prev 0).y)).length ≤ 20 ∧
    (6 < (motionStepSpec hist ((h 0).y - (prev 0).y)).length →
      4 ≤ directionChanges (motionStepSpec hist ((h 0).y - (prev 0).y)) →
      recognizeGesture (some h) ⟨some prev, hist⟩ = (Gesture.Shake, ⟨some h, []⟩)) ∧
    (¬(6 < (motionStepSpec hist ((h 0).y - (prev 0).y)).length ∧
        4 ≤ directionChanges (motionStepSpec hist ((h 0).y - (prev 0).y))) →
      (recognizeGesture (some h) ⟨some prev, hist⟩).2.verticalHistory =
        motionStepSpec hist ((h 0).y - (prev 0).y)) := by
  have heq := updateHistory_eq_spec hist ((h 0).y - (prev 0).y) hlen
  have hnx : nextHistory ⟨some prev, hist⟩ h = motionStepSpec hist ((h 0).y - (prev 0).y) := by
    simpa [nextHistory] using heq
  refine ⟨heq, motionStepSpec_length hist _ hlen, ?_, ?_⟩
  · intro h6 h4
    exact recognizeGesture_shake h _ (by rw [hnx]; exact ⟨h6, h4⟩)
  · intro hno
    rw [recognizeGesture_no_shake h _ (by rw [hnx]; exact hno)]
    cases hc : classify h <;> simp [hnx]

/-- C4 witness: the oscillating 7-entry history with a motionless wrist; the
nonzero-displacement cases are exercised by the universally quantified
theorem. -/
theorem c4_motion_history_and_shake_witness :
    shakeHist.length ≤ 20 ∧
    recognizeGesture (some constHand) ⟨some constHand, shakeHist⟩ =
      (Gesture.Shake, ⟨some constHand, []⟩) :=
  ⟨by decide,
   (c4_motion_history_and_shake constHand constHand shakeHist (by decide)).2.2.1
     (by with_unfolding_all decide) (by with_unfolding_all decide)⟩

/-- One `add` on a within-capacity buffer: the result is the pushed list with
its head dropped exactly when the buffer was full. -/
theorem GestureBuffer.add_buffer (b : GestureBuffer) (f : Frame)
    (hb : b.buffer.length ≤ b.maxSize) :
    (b.add f).buffer = (b.buffer ++ [f]).drop (b.buffer.length + 1 - b.maxSize) := by
  simp only [GestureBuffer.add]
  split_ifs with hc
  · have h1 : b.buffer.length + 1 - b.maxSize = 1 := by
      simp only [List.length_append, List.length_singleton] at hc
      omega
    rw [h1, List.drop_one]
  · have h0 : b.buffer.length + 1 - b.maxSize = 0 := by
      simp only [List.length_append, List.length_singleton] at hc
      omega
    rw [h0, List.drop_zero]

/-- `addAll` on a within-capacity buffer keeps exactly the last
`maxSize`-many of the appended contents, in order. -/
theorem addAll_buffer_eq (fs : List Frame) : ∀ (b : GestureBuffer),
    b.buffer.length ≤ b.maxSize →
    (addAll b fs).buffer =
      (b.buffer ++ fs).drop (b.buffer.length + fs.length - b.maxSize) ∧
    (addAll b fs).maxSize = b.maxSize := by
  induction fs with
  | nil =>
    intro b hb
    refine ⟨?_, rfl⟩
    simp [addAll, Nat.sub_eq_zero_of_le hb]
  | cons f fs ih =>
    intro b hb
    have hadd : (b.add f).buffer = (b.buffer ++ [f]).drop (b.buffer.length + 1 - b.maxSize) :=
      GestureBuffer.add_buffer b f hb
    have hmax : (b.add f).maxSize = b.maxSize := rfl
    have hlen : (b.add f).buffer.length ≤ (b.add f).maxSize := by
      rw [hadd, hmax, List.length_drop]
      simp only [List.length_append, List.length_singleton]
      omega
    obtain ⟨ih1, ih2⟩ := ih (b.add f) hlen
    have hstep : addAll b (f :: fs) = addAll (b.add f) fs := rfl
    refine ⟨?_, by rw [hstep, ih2, hmax]⟩
    rw [hstep, ih1, hadd, hmax, List.length_drop]
    simp only [List.length_append, List.length_singleton]
    rw [← List.drop_append_of_le_length
      (by simp only [List.length_append, List.length_singleton]; omega)]
    rw [List.drop_drop]
    have hl : b.buffer ++ [f] ++ fs = b.buffer ++ f :: fs := by simp
    rw [hl]
    congr 1
    simp only [List.length_cons]
    omega

/-- Every operation sequence keeps the buffer within capacity and preserves
the capacity. -/
theorem applyOps_invariant (ops : List BufOp) : ∀ (b : GestureBuffer),
    b.buffer.length ≤ b.maxSize →
    (ops.foldl BufOp.apply b).buffer.length ≤ b.maxSize ∧
    (ops.foldl BufOp.apply b).maxSize = b.maxSize := by
  induction ops with
  | nil => intro b hb; exact ⟨hb, rfl⟩
  | cons op ops ih =>
    intro b hb
    have hstep : (BufOp.apply b op).buffer.length ≤ (BufOp.apply b op).maxSize ∧
        (BufOp.apply b op).maxSize = b.maxSize := by
      cases op with
      | add f =>
        refine ⟨?_, rfl⟩
        rw [show BufOp.apply b (BufOp.add f) = b.add f from rfl,
          GestureBuffer.add_buffer b f hb, List.length_drop]
        simp only [List.length_append, List.length_singleton]
        show _ ≤ b.maxSize
        omega
      | clear => exact ⟨by simp [BufOp.apply, GestureBuffer.clear], rfl⟩
    obtain ⟨hs1, hs2⟩ := hstep
    obtain ⟨h1, h2⟩ := ih (BufOp.apply b op) hs1
    exact ⟨hs2 ▸ h1, h2.trans hs2⟩

/-- C6: for every capacity `c` and operation sequence from the fresh buffer,
(i) the length never exceeds `c` after any operation; (ii) clearing and then
adding any frames `fs` leaves exactly the last `min (fs.length) c` of them —
`fs.drop (fs.length - c)` — in insertion order (for `fs.length = 35`,
`c = 30` this is the most recent 30); (iii) `clear` followed by `get` yields
the empty sequence. -/
theorem c6_buffer_fifo :
    (∀ (c : Nat) (ops : List BufOp), (applyOps c ops).buffer.length ≤ c) ∧
    (∀ (c : Nat) (ops : List BufOp) (fs : List Frame),
      (addAll ((applyOps c ops).clear) fs).buffer = fs.drop (fs.length - c)) ∧
    (∀ b : GestureBuffer, b.clear.getBuffer = []) := by
  refine ⟨?_, ?_, fun b => rfl⟩
  · intro c ops
    exact (applyOps_invariant ops (GestureBuffer.init c) (by simp [GestureBuffer.init])).1
  · intro c ops fs
    have hmax : (applyOps c ops).maxSize = c :=
      (applyOps_invariant ops (GestureBuffer.init c) (by simp [GestureBuffer.init])).2
    have hclear : ((applyOps c ops).clear).buffer = [] := rfl
    have hclearmax : ((applyOps c ops).clear).maxSize = c := hmax
    have h := addAll_buffer_eq fs ((applyOps c ops).clear)
      (by rw [hclear, hclearmax]; simp)
    rw [h.1, hclear, hclearmax]
    simp

/-- C1 counterexample: a hand classified as the letter `A` from the initial
state.  The call returns through the `A` early-return branch and leaves the
previous-frame reference at `none`, not at the current landmarks — refuting
the claim that every return path records the current frame. -/
theorem c1_counterexample :
    (recognizeGesture (some fistThumbUpHand) ⟨none, []⟩).1 = Gesture.A ∧
    (recognizeGesture (some fistThumbUpHand) ⟨none, []⟩).2.prevLandmarks ≠
      some fistThumbUpHand := by
  with_unfolding_all decide

/-- C1 (amended): on a call with a non-empty hand, the previous-frame
reference is set to the current landmarks exactly on the shake return path
and on the fall-through NONE path; the early-return letter branches leave it
unchanged. -/
theorem c1_prev_frame_update (h : Hand) (s : RecState) :
    (recognizeGesture (some h) s).2.prevLandmarks =
      if (recognizeGesture (some h) s).1 = Gesture.Shake ∨ classify h = none
      then some h else s.prevLandmarks := by
  by_cases hsh : 6 < (nextHistory s h).length ∧ 4 ≤ directionChanges (nextHistory s h)
  · rw [recognizeGesture_shake h s hsh]
    simp
  · rw [recognizeGesture_no_shake h s hsh]
    cases hc : classify h with
    | some g =>
      have hg := (classify_letters h g hc).1
      simp [hg]
    | none => simp

/-- C2 counterexample: a hand with all four fingers extended and the thumb
tip within 0.06 of both the index and middle fingertips.  The classifier
returns `F` (the middle/ring/pinky-extended F-branch precedes the O-check),
not `O` as claimed. -/
theorem c2_counterexample :
    isExtended (allExtendedTouchHand 8) (allExtendedTouchHand 6) (allExtendedTouchHand 0) = true ∧
    isExtended (allExtendedTouchHand 12) (allExtendedTouchHand 10) (allExtendedTouchHand 0) = true ∧
    isExtended (allExtendedTouchHand 16) (allExtendedTouchHand 14) (allExtendedTouchHand 0) = true ∧
    isExtended (allExtendedTouchHand 20) (allExtendedTouchHand 18) (allExtendedTouchHand 0) = true ∧
    distSq (allExtendedTouchHand 4) (allExtendedTouchHand 8) < 0.06 ^ 2 ∧
    distSq (allExtendedTouchHand 4) (allExtendedTouchHand 12) < 0.06 ^ 2 ∧
    (recognizeGesture (some allExtendedTouchHand) ⟨none, []⟩).1 = Gesture.F := by
  with_unfolding_all decide

/-- C2 (amended): for every hand whose index, middle, ring and pinky fingers
are all extended and whose thumb tip is within 0.06 of both the index and
middle fingertips, the letter logic — and hence a call from the initial
state — returns `F`: the secondary F-branch fires before the O-check can be
reached. -/
theorem c2_all_extended_thumb_touch_is_F (h : Hand)
    (hi : isExtended (h 8) (h 6) (h 0) = true)
    (hm : isExtended (h 12) (h 10) (h 0) = true)
    (hr : isExtended (h 16) (h 14) (h 0) = true)
    (hp : isExtended (h 20) (h 18) (h 0) = true)
    (hti : distSq (h 4) (h 8) < 0.06 ^ 2)
    (htm : distSq (h 4) (h 12) < 0.06 ^ 2) :
    classify h = some Gesture.F ∧
    (recognizeGesture (some h) ⟨none, []⟩).1 = Gesture.F := by
  have hc : classify h = some Gesture.F := by
    simp only [classify]
    simp [hi, hm, hr, hp, distLt, hti]
  refine ⟨hc, ?_⟩
  have hsh : ¬(6 < (nextHistory ⟨none, []⟩ h).length ∧
      4 ≤ directionChanges (nextHistory ⟨none, []⟩ h)) := by
    simp [nextHistory]
  rw [recognizeGesture_no_shake h _ hsh, hc]

/-- C2 witness: the amended theorem applied to the concrete touching hand. -/
theorem c2_all_extended_thumb_touch_is_F_witness :
    distSq (allExtendedTouchHand 4) (allExtendedTouchHand 8) < 0.06 ^ 2 ∧
    classify allExtendedTouchHand = some Gesture.F :=
  ⟨by with_unfolding_all decide,
   (c2_all_extended_thumb_touch_is_F allExtendedTouchHand
      (by with_unfolding_all decide) (by with_unfolding_all decide)
      (by with_unfolding_all decide) (by with_unfolding_all decide)
      (by with_unfolding_all decide) (by with_unfolding_all decide)).1⟩

/-- C5: whenever a call returns the shake label, an immediately following
call with the identical landmarks does not return it again: the first call
cleared the vertical history, and a zero wrist displacement records no new
direction sign. -/
theorem c5_no_double_shake (lm : Option Hand) (s : RecState)
    (hfirst : (recognizeGesture lm s).1 = Gesture.Shake) :
    (recognizeGesture lm (recognizeGesture lm s).2).1 ≠ Gesture.Shake := by
  cases lm with
  | none => simp [recognizeGesture] at hfirst
  | some h =>
    by_cases hsh : 6 < (nextHistory s h).length ∧ 4 ≤ directionChanges (nextHistory s h)
    · rw [recognizeGesture_shake h s hsh]
      have hnh : nextHistory ⟨some h, []⟩ h = [] := by
        simp [nextHistory, updateHistory, sub_self]
        norm_num
      have hsh2 : ¬(6 < (nextHistory ⟨some h, []⟩ h).length ∧
          4 ≤ directionChanges (nextHistory ⟨some h, []⟩ h)) := by
        rw [hnh]; simp
      rw [show (Gesture.Shake, (⟨some h, []⟩ : RecState)).2 = ⟨some h, []⟩ from rfl]
      rw [recognizeGesture_no_shake h _ hsh2]
      cases hc : classify h with
      | some g =>
        have := (classify_letters h g hc).1
        simpa using this
      | none => simp
    · rw [recognizeGesture_no_shake h s hsh] at hfirst
      cases hc : classify h with
      | none => rw [hc] at hfirst; simp at hfirst
      | some g =>
        rw [hc] at hfirst
        simp at hfirst
        exact absurd hfirst (classify_letters h g hc).1

/-- C5 witness: a state whose history is an oscillation of length 7; the
first call with the all-zero hand fires the shake, the second call does not. -/
theorem c5_no_double_shake_witness :
    (recognizeGesture (some constHand) ⟨some constHand, shakeHist⟩).1 = Gesture.Shake ∧
    (recognizeGesture (some constHand)
      (recognizeGesture (some constHand) ⟨some constHand, shakeHist⟩).2).1 ≠ Gesture.Shake :=
  ⟨by with_unfolding_all decide,
   c5_no_double_shake (some constHand) ⟨some constHand, shakeHist⟩
     (by with_unfolding_all decide)⟩

set_option maxRecDepth 8000 in
/-- C3 counterexample: a 20-frame buffer whose first 14 frames each hold an
open hand with the wrist x oscillating (14 of the last 20 frames = exactly
70% contain an open hand; 14 ≥ 10 wrist-x samples; 12 ≥ 2 reversals; range
0.2 > 0.1) but whose last frame holds no hand.  The matcher returns `none`,
not HELLO: the current-frame gate fires, and the open-hand count is not
strictly greater than 14. -/
theorem c3_counterexample :
    (noHandLastBuf.getBuffer.drop (noHandLastBuf.getBuffer.length - 20)).length = 20 ∧
    14 ≤ ((noHandLastBuf.getBuffer.drop (noHandLastBuf.getBuffer.length - 20)).filter
        (fun f => f.any checkOpenHand)).length ∧
    10 ≤ (helloWristXs noHandLastBuf.getBuffer).length ∧
    2 ≤ countReversals 0.005 (helloWristXs noHandLastBuf.getBuffer) ∧
    (0.1 : ℚ) < listMax (helloWristXs noHandLastBuf.getBuffer) -
      listMin (helloWristXs noHandLastBuf.getBuffer) ∧
    recognizeDynamicGesture noHandLastBuf = none := by
  with_unfolding_all decide

/-- C3 (amended): for every buffer whose current (last) frame contains at
least one hand, in which strictly more than 14 of the last 20 frames contain
an open hand, from which strictly more than 10 wrist-x samples (first open
hand per qualifying frame) are collected, with at least 2 direction reversals
in x (|Δx| > 0.005 with a sign flip from the previous nonzero direction) and
max x − min x greater than 0.1, the dynamic matcher returns HELLO. -/
theorem c3_hello_detection (b : GestureBuffer)
    (hcur : b.getBuffer.getD (b.getBuffer.length - 1) [] ≠ [])
    (hopen : 14 < ((b.getBuffer.drop (b.getBuffer.length - 20)).filter
        (fun f => f.any checkOpenHand)).length)
    (hsamp : 10 < (helloWristXs b.getBuffer).length)
    (hrev : 2 ≤ countReversals 0.005 (helloWristXs b.getBuffer))
    (hrange : (0.1 : ℚ) < listMax (helloWristXs b.getBuffer) -
      listMin (helloWristXs b.getBuffer)) :
    recognizeDynamicGesture b = some DynGesture.HELLO := by
  have hlen5 : ¬ (b.getBuffer.length < 5) := by
    have h1 : ((b.getBuffer.drop (b.getBuffer.length - 20)).filter
        (fun f => f.any checkOpenHand)).length ≤
        (b.getBuffer.drop (b.getBuffer.length - 20)).length :=
      List.length_filter_le _ _
    have h2 : (b.getBuffer.drop (b.getBuffer.length - 20)).length =
        b.getBuffer.length - (b.getBuffer.length - 20) :=
      List.length_drop _ _
    omega
  have hcur0 : ¬ ((b.getBuffer.getD (b.getBuffer.length - 1) []).length = 0) := by
    simpa [List.length_eq_zero] using hcur
  have hhello : helloCond b.getBuffer = true := by
    simp only [helloCond]
    rw [if_pos hopen, if_pos hsamp]
    exact decide_eq_true ⟨hrev, hrange⟩
  simp only [recognizeDynamicGesture, if_neg hlen5, if_neg hcur0, hhello]
  simp

set_option maxRecDepth 8000 in
/-- C3 witness: twenty one-open-hand frames with the wrist x oscillating
between 0.3 and 0.5. -/
theorem c3_hello_detection_witness :
    14 < ((helloBuf.getBuffer.drop (helloBuf.getBuffer.length - 20)).filter
        (fun f => f.any checkOpenHand)).length ∧
    recognizeDynamicGesture helloBuf = some DynGesture.HELLO :=
  ⟨by with_unfolding_all decide,
   c3_hello_detection helloBuf (by with_unfolding_all decide)
     (by with_unfolding_all decide) (by with_unfolding_all decide)
     (by with_unfolding_all decide) (by with_unfolding_all decide)⟩

/-- C10: on every input and state, the static classifier never returns the
letters J or R — neither the shake branch, the letter branches nor either
NONE path produces them. -/
theorem c10_never_J_or_R (lm : Option Hand) (s : RecState) :
    (recognizeGesture lm s).1 ≠ Gesture.J ∧ (recognizeGesture lm s).1 ≠ Gesture.R := by
  cases lm with
  | none => exact ⟨by simp [recognizeGesture], by simp [recognizeGesture]⟩
  | some h =>
    by_cases hsh : 6 < (nextHistory s h).length ∧ 4 ≤ directionChanges (nextHistory s h)
    · rw [recognizeGesture_shake h s hsh]
      exact ⟨by simp, by simp⟩
    · rw [recognizeGesture_no_shake h s hsh]
      cases hc : classify h with
      | none => exact ⟨by simp, by simp⟩
      | some g =>
        obtain ⟨-, hJ, hR, -⟩ := classify_letters h g hc
        exact ⟨hJ, hR⟩
